import Mathlib

/-!
Verification of the WordPress deployer (`src/main.go`, second revision in the
file, together with the Kubernetes helpers in `src/unnamed/part_000`).

Go strings are modelled as `List Char` (the repository only manipulates ASCII
names, so Go's byte length coincides with the character count).  The cluster
API (`client-go`) is an external collaborator: its calls are modelled by an
oracle supplying each call's result, and the handler is embedded as a function
from the request payload and that oracle to the ordered list of cluster calls
it performs plus the HTTP response value.  Real-time aspects of the readiness
poller are discretised: poll number `i` is the poll happening `5*i` seconds
after the start, matching `wait.PollImmediate(5*time.Second, timeout, ...)`.
-/

namespace WPDeployer

/-- Converts a Lean string literal to the `List Char` model of a Go string. -/
def str (s : String) : List Char := s.toList

/-! ## Naming / identity generator (src/main.go 634-669, src/unnamed/part_000 512-523) -/

/-- Alphabet of `generateRandomSuffix` (src/main.go 657): `[a-z0-9]`, 36 characters. -/
def suffixChars : List Char := str "abcdefghijklmnopqrstuvwxyz0123456789"

/-- Embeds `generateRandomSuffix` (src/main.go 656-669).  The Go code draws `n`
uniform values below `len(chars) = 36` from `crypto/rand` and indexes the
alphabet with each.  The random source is modelled by `draws`, the sequence of
values it yields; too short a list models an entropy-read failure (in which
case Go returns an error, here `none`). -/
def generateRandomSuffix (n : Nat) (draws : List (Fin 36)) : Option (List Char) :=
  if n ≤ draws.length then
    some ((draws.take n).map (fun i => suffixChars.getD i.val 'a'))
  else
    none

/-- Alphabet of `generateRandomPassword` (src/unnamed/part_000 514): 75 characters. -/
def passwordChars : List Char :=
  str "ABCDEFGHIJKLMNOPQRSTUVWXYZabcdefghijklmnopqrstuvwxyz0123456789!@#$%^&*()-_+"

/-- Per-byte sampling map of `generateRandomPassword` (src/unnamed/part_000 520):
`bytes[i] = chars[bytes[i] % byte(len(chars))]`. -/
def passwordMap (b : Nat) : Char := passwordChars.getD (b % passwordChars.length) ' '

/-- Embeds `generateRandomPassword` (src/unnamed/part_000 512-523): reads
`length` random bytes (modelled by `randomBytes`, values in `0..255`; too short
a list models a `rand.Read` failure) and maps each through `passwordMap`. -/
def generateRandomPassword (length : Nat) (randomBytes : List Nat) : Option (List Char) :=
  if length ≤ randomBytes.length then
    some ((randomBytes.take length).map passwordMap)
  else
    none

/-- Embeds `buildResourceName` (src/main.go 634-653).  Note the Go source
computes `fixedLen := len(resourceType) + 5 + 2` with the literal constant `5`
(justified by the comment "We know suffix is always 5 chars"), not with
`len(suffix)`.  Arithmetic is over `Int`, matching Go's signed `int`. -/
def buildResourceName (user rType sfx : List Char) : List Char :=
  let maxTotal : Int := 60
  let fixedLen : Int := rType.length + 5 + 2
  let allowed0 : Int := maxTotal - fixedLen
  let allowed : Int := if allowed0 < 0 then 0 else allowed0
  let p : List Char := if (user.length : Int) > allowed then user.take allowed.toNat else user
  p ++ ('-' :: sfx) ++ ('-' :: rType)

/-- Modelled from the spec's words (spec.md section 4.1, and claim C3), for
comparison with `buildResourceName`: "Computes `fixedLen = len(resourceType) +
len(suffix) + 2`; `allowed = 60 - fixedLen`; if `allowed < 0`, clamp to 0;
truncates `prefix` to `allowed` characters".  The only difference from the
source is that the budget uses the actual `len(suffix)`. -/
def buildResourceNameFromSpec (user rType sfx : List Char) : List Char :=
  let fixedLen : Int := rType.length + sfx.length + 2
  let allowed : Int := if 60 - fixedLen < 0 then 0 else 60 - fixedLen
  (user.take allowed.toNat) ++ ('-' :: sfx) ++ ('-' :: rType)

/-- The nine resource types the pipeline feeds to `buildResourceName`
(src/main.go 441-450). -/
def pipelineResourceTypes : List (List Char) :=
  [str "db-pv", str "db-pvc", str "db", str "db-svc", str "db-secret",
   str "wp-pv", str "wp-pvc", str "wp", str "wp-svc"]

/-! ## Basic facts about the generator -/

/-- A successful `generateRandomSuffix n` call returns a string of length `n`. -/
theorem generateRandomSuffix_length {n : Nat} {draws : List (Fin 36)} {s : List Char}
    (h : generateRandomSuffix n draws = some s) : s.length = n := by
  unfold generateRandomSuffix at h
  split at h
  · cases h
    simp [List.length_take]
    omega
  · cases h

/-- Core length computation for `buildResourceName`: whenever the suffix has the
pipeline's length 5 and the resource type is short enough that the budget is
nonnegative, the result fits in 60 characters. -/
theorem buildResourceName_length_le (user rType s : List Char)
    (hs : s.length = 5) (hrt : rType.length ≤ 53) :
    (buildResourceName user rType s).length ≤ 60 := by
  unfold buildResourceName
  have h0 : ¬ ((60 : Int) - (rType.length + 5 + 2) < 0) := by omega
  simp only [h0, if_false]
  split
  · simp only [List.length_append, List.length_cons, List.length_take, hs]
    omega
  · rename_i hle
    simp only [List.length_append, List.length_cons, hs]
    omega

/-- Claim C7: for every prefix of length 0 through 1000, every resource type the
pipeline uses, and every suffix actually produced by `generateRandomSuffix 5`,
the name built by `buildResourceName` has length at most 60. -/
theorem buildResourceName_length_bound (user rType s : List Char) (draws : List (Fin 36))
    (_hp : user.length ≤ 1000) (hrt : rType ∈ pipelineResourceTypes)
    (hgen : generateRandomSuffix 5 draws = some s) :
    (buildResourceName user rType s).length ≤ 60 := by
  have hall : ∀ r ∈ pipelineResourceTypes, r.length ≤ 53 := by decide
  exact buildResourceName_length_le user rType s (generateRandomSuffix_length hgen)
    (hall rType hrt)

/-- Concrete draw sequence making `generateRandomSuffix 5` return `"aaaaa"`. -/
def aaaaaDraws : List (Fin 36) := List.replicate 5 0

/-- Witness for C7 at a concrete input: prefix `"myblog"`, type `"db-pv"`,
suffix produced from `aaaaaDraws`. -/
theorem buildResourceName_length_bound_witness :
    (buildResourceName (str "myblog") (str "db-pv") (str "aaaaa")).length ≤ 60 :=
  buildResourceName_length_bound (str "myblog") (str "db-pv") (str "aaaaa") aaaaaDraws
    (by decide) (by decide) (by decide)

/-- Counterexample to claim C3 as stated: with a suffix whose length is not 5
(here the empty suffix) and a 55-character prefix, the source truncates the
prefix to `60 - (len("db") + 5 + 2) = 51` characters while the claim's formula
allows `60 - (len("db") + 0 + 2) = 56`, so the outputs differ: the prefix
budget is computed from the constant 5, not from `len(suffix)`. -/
theorem buildResourceName_budget_cex :
    buildResourceName (List.replicate 55 'a') (str "db") []
      ≠ buildResourceNameFromSpec (List.replicate 55 'a') (str "db") [] := by
  decide

/-- Claim C3 amended: `buildResourceName` computes the prefix budget as
`max(0, 60 - (len(resourceType) + 5 + 2))` with the fixed constant 5; this
coincides with the claim's formula exactly when the suffix argument has
length 5 (as every pipeline call guarantees). -/
theorem buildResourceName_matches_spec_when_suffix5 (user rType s : List Char)
    (hs : s.length = 5) :
    buildResourceName user rType s = buildResourceNameFromSpec user rType s := by
  unfold buildResourceName buildResourceNameFromSpec
  rw [hs]
  dsimp only
  push_cast
  congr 2
  by_cases hneg : (60 : Int) - (rType.length + 5 + 2) < 0
  · rw [if_pos hneg]
    by_cases hu : (user.length : Int) > 0
    · rw [if_pos hu]
    · rw [if_neg hu]
      have h0 : user.length = 0 := by omega
      simp [List.eq_nil_of_length_eq_zero h0]
  · rw [if_neg hneg]
    by_cases hu : (user.length : Int) > 60 - (rType.length + 5 + 2)
    · rw [if_pos hu]
    · rw [if_neg hu]
      rw [List.take_of_length_le]
      omega

/-- Witness for the amended C3 at a concrete input with a 5-character suffix. -/
theorem buildResourceName_matches_spec_witness :
    buildResourceName (str "myblog") (str "db-svc") (str "aaaaa")
      = buildResourceNameFromSpec (str "myblog") (str "db-svc") (str "aaaaa") :=
  buildResourceName_matches_spec_when_suffix5 (str "myblog") (str "db-svc") (str "aaaaa")
    (by decide)

/-- Counterexample to claim C9 as stated: the byte-to-character map of
`generateRandomPassword` is not uniform.  `'A' = chars[0]` has four byte
preimages (0, 75, 150, 225) while `'+' = chars[74]` has only three
(74, 149, 224), because `256 mod 75 = 31 ≠ 0`. -/
theorem passwordMap_not_uniform_cex :
    ((List.range 256).filter (fun b => passwordMap b = 'A')).length
      ≠ ((List.range 256).filter (fun b => passwordMap b = '+')).length := by
  decide

/-- Claim C9 amended: under reduction mod 75 of a uniform byte, the first
`256 mod 75 = 31` alphabet characters each have 4 byte preimages and the
remaining 44 have 3, so the per-character sampling of `generateRandomPassword`
carries a modulo-reduction bias of 4/256 versus 3/256. -/
theorem passwordMap_preimage_counts (i : Nat) (hi : i < passwordChars.length) :
    ((List.range 256).filter (fun b => passwordMap b = passwordChars.getD i ' ')).length
      = if i < 31 then 4 else 3 := by
  revert i
  decide

/-- Witness for the amended C9 at the concrete index 0 (character `'A'`). -/
theorem passwordMap_preimage_counts_witness :
    ((List.range 256).filter (fun b => passwordMap b = passwordChars.getD 0 ' ')).length
      = if (0 : Nat) < 31 then 4 else 3 :=
  passwordMap_preimage_counts 0 (by decide)

/-! ## The combined MySQL / WordPress secret (src/unnamed/part_000 176-220) -/

/-- The eight entries of the `secretData` map built by `createWPMySQLSecret`
(src/unnamed/part_000 194-204).  The keys are fixed, so the map is modelled as
a record with one field per key. -/
structure SecretData where
  MYSQL_ROOT_PASSWORD : List Char
  MYSQL_DATABASE : List Char
  MYSQL_USER : List Char
  MYSQL_PASSWORD : List Char
  WORDPRESS_DB_HOST : List Char
  WORDPRESS_DB_USER : List Char
  WORDPRESS_DB_PASSWORD : List Char
  WORDPRESS_DB_NAME : List Char
  deriving DecidableEq

/-- The `secretData` value of `createWPMySQLSecret` as a function of the two
generated passwords and the `deployName` argument (src/unnamed/part_000
194-204): `WORDPRESS_DB_HOST` is `deployName + "-db-svc"`. -/
def wpMySQLSecretData (rootPass wpPass deployName : List Char) : SecretData where
  MYSQL_ROOT_PASSWORD := rootPass
  MYSQL_DATABASE := str "wordpressdb"
  MYSQL_USER := str "wordpress"
  MYSQL_PASSWORD := wpPass
  WORDPRESS_DB_HOST := deployName ++ str "-db-svc"
  WORDPRESS_DB_USER := str "wordpress"
  WORDPRESS_DB_PASSWORD := wpPass
  WORDPRESS_DB_NAME := str "wordpressdb"

/-- Embeds `createWPMySQLSecret` (src/unnamed/part_000 178-220) up to the
cluster create call: it draws a 16-character root password and then a
16-character application password from the random source (modelled by
`randomBytes`, the bytes the source yields: the first call consumes 16 bytes,
the second the next 16) and assembles the secret data.  The namespace and
secret name only enter the object metadata, which no claim concerns. -/
def createWPMySQLSecret (randomBytes : List Nat) (deployName : List Char) :
    Option SecretData :=
  match generateRandomPassword 16 randomBytes with
  | none => none
  | some rootPass =>
    match generateRandomPassword 16 (randomBytes.drop 16) with
    | none => none
    | some wpPass => some (wpMySQLSecretData rootPass wpPass deployName)

/-- The secret data the pipeline creates: `handleCreateWordPress` passes
`dbServiceName` — the full MySQL service name `buildResourceName(prefix,
"db-svc", suffix)` — as the `deployName` argument of `createWPMySQLSecret`
(src/main.go 507). -/
def pipelineSecretData (namePfx sfx rootPass wpPass : List Char) : SecretData :=
  wpMySQLSecretData rootPass wpPass (buildResourceName namePfx (str "db-svc") sfx)

/-- Claim C1 evaluated at a concrete request (prefix `"wp"`, suffix `"aaaaa"`):
the connection host stored in the secret is `"wp-aaaaa-db-svc-db-svc"` — the
MySQL service name with a second `"-db-svc"` appended — while the MySQL service
created by the same pipeline is named `"wp-aaaaa-db-svc"`, so the stored host
does not equal the service's name and points at a nonexistent endpoint. -/
theorem pipelineSecretData_host_mismatch :
    (pipelineSecretData (str "wp") (str "aaaaa") (str "r") (str "p")).WORDPRESS_DB_HOST
        = str "wp-aaaaa-db-svc-db-svc"
      ∧ buildResourceName (str "wp") (str "db-svc") (str "aaaaa") = str "wp-aaaaa-db-svc"
      ∧ (pipelineSecretData (str "wp") (str "aaaaa") (str "r") (str "p")).WORDPRESS_DB_HOST
        ≠ buildResourceName (str "wp") (str "db-svc") (str "aaaaa") := by
  refine ⟨by decide, by decide, by decide⟩

/-- Claim C10: every secret successfully assembled by `createWPMySQLSecret` is
internally consistent — the WordPress-side connection entries coincide with the
MySQL initialization entries (single app-user password, user `"wordpress"`,
database `"wordpressdb"`). -/
theorem createWPMySQLSecret_consistent (randomBytes : List Nat) (deployName : List Char)
    (d : SecretData) (h : createWPMySQLSecret randomBytes deployName = some d) :
    d.WORDPRESS_DB_PASSWORD = d.MYSQL_PASSWORD
      ∧ d.WORDPRESS_DB_USER = d.MYSQL_USER
      ∧ d.WORDPRESS_DB_NAME = d.MYSQL_DATABASE
      ∧ d.MYSQL_USER = str "wordpress"
      ∧ d.MYSQL_DATABASE = str "wordpressdb" := by
  unfold createWPMySQLSecret at h
  cases hr : generateRandomPassword 16 randomBytes with
  | none => rw [hr] at h; cases h
  | some rootPass =>
    cases hw : generateRandomPassword 16 (randomBytes.drop 16) with
    | none => rw [hr, hw] at h; cases h
    | some wpPass =>
      rw [hr, hw] at h
      cases h
      exact ⟨rfl, rfl, rfl, rfl, rfl⟩

/-- Witness for C10 at a concrete random-byte sequence (32 zero bytes, giving
the password `"AAAAAAAAAAAAAAAA"` twice). -/
theorem createWPMySQLSecret_consistent_witness :
    (wpMySQLSecretData (List.replicate 16 'A') (List.replicate 16 'A')
        (str "demo")).WORDPRESS_DB_PASSWORD
      = (wpMySQLSecretData (List.replicate 16 'A') (List.replicate 16 'A')
        (str "demo")).MYSQL_PASSWORD :=
  (createWPMySQLSecret_consistent (List.replicate 32 0) (str "demo")
    (wpMySQLSecretData (List.replicate 16 'A') (List.replicate 16 'A') (str "demo"))
    (by decide)).1

/-! ## Cluster calls and `ensureNamespace` (src/unnamed/part_000 71-90) -/

/-- The observable cluster-gateway calls one request performs, in order.
Resource-creation calls carry the name of the object they submit.  Disk sizes
and host paths are elided: no claim concerns them. -/
inductive Event where
  | genSuffix
  | initClient
  | nsGet
  | nsCreate
  | createPV (name : List Char)
  | createPVC (name : List Char)
  | createSecret (name : List Char)
  | createDeployment (name : List Char)
  | createService (name : List Char)
  | waitReady (name : List Char)
  deriving DecidableEq

/-- An error returned by a gateway call.  `notFound` is the distinguished
not-found condition of the Kubernetes API; `other` carries any other message. -/
inductive K8sErr where
  | notFound
  | other (msg : List Char)
  deriving DecidableEq

/-- Message text of a gateway error (for wrapping into Go error strings). -/
def K8sErr.message : K8sErr → List Char
  | .notFound => str "not found"
  | .other m => m

/-- Results of the two namespace calls `ensureNamespace` may issue. -/
structure NsGateway where
  getNamespace : Except K8sErr Unit
  createNamespace : Except K8sErr Unit

/-- Embeds `ensureNamespace` (src/unnamed/part_000 72-90), returning the calls
performed and the Go return value.  The source checks only `err == nil` on the
get: on a nil error it returns immediately, and on ANY non-nil error — without
inspecting whether it is a not-found — it proceeds to the create call,
returning that call's (wrapped) error if it fails. -/
def ensureNamespace (gw : NsGateway) (ns : List Char) : List Event × Except (List Char) Unit :=
  match gw.getNamespace with
  | .ok _ => ([Event.nsGet], .ok ())
  | .error _ =>
    match gw.createNamespace with
    | .ok _ => ([Event.nsGet, Event.nsCreate], .ok ())
    | .error e =>
      ([Event.nsGet, Event.nsCreate],
        .error (str "unable to create namespace " ++ ns ++ str ": " ++ e.message))

/-- A gateway whose get fails with a non-not-found (transport) error and whose
create succeeds. -/
def transportFailGateway : NsGateway where
  getNamespace := .error (.other (str "transport failure"))
  createNamespace := .ok ()

/-- Counterexample to claim C2 as stated: when the namespace get fails with an
error that is NOT a not-found condition, `ensureNamespace` nevertheless issues
the create call (the call list is not just the get) and, the create succeeding,
reports success instead of returning the lookup error. -/
theorem ensureNamespace_nonNotFound_cex :
    (ensureNamespace transportFailGateway (str "demo")).1 ≠ [Event.nsGet]
      ∧ (ensureNamespace transportFailGateway (str "demo")).2 = Except.ok () := by
  refine ⟨by decide, rfl⟩

/-- Claim C2 amended: `ensureNamespace` first gets the namespace; if the get
succeeds it makes no create call and returns success; if the get fails with ANY
error — the code does not distinguish not-found from other lookup errors — it
issues the create, succeeding if the create succeeds and returning the wrapped
create error otherwise.  A non-not-found get error is therefore not fatal by
itself. -/
theorem ensureNamespace_behavior (gw : NsGateway) (ns : List Char) :
    (gw.getNamespace = .ok () → ensureNamespace gw ns = ([Event.nsGet], .ok ()))
      ∧ (∀ e, gw.getNamespace = .error e → gw.createNamespace = .ok () →
          ensureNamespace gw ns = ([Event.nsGet, Event.nsCreate], .ok ()))
      ∧ (∀ e e', gw.getNamespace = .error e → gw.createNamespace = .error e' →
          ensureNamespace gw ns = ([Event.nsGet, Event.nsCreate],
            .error (str "unable to create namespace " ++ ns ++ str ": " ++ e'.message))) := by
  refine ⟨fun hg => ?_, fun e hg hc => ?_, fun e e' hg hc => ?_⟩
  · simp [ensureNamespace, hg]
  · simp [ensureNamespace, hg, hc]
  · simp [ensureNamespace, hg, hc]

/-- Witness for the amended C2: a gateway whose get succeeds performs only the
get call and returns success. -/
theorem ensureNamespace_behavior_witness :
    ensureNamespace ⟨Except.ok (), Except.ok ()⟩ (str "demo")
      = ([Event.nsGet], Except.ok ()) :=
  (ensureNamespace_behavior ⟨Except.ok (), Except.ok ()⟩ (str "demo")).1 rfl

/-! ## Readiness poller (src/unnamed/part_000 486-505) -/

/-- Outcome of one status fetch inside the poll loop: either the deployment get
fails, or it reports a ready-replica count (`int32` in Go, so `Int`). -/
inductive PollResult where
  | fetchErr
  | status (readyReplicas : Int)
  deriving DecidableEq

/-- One evaluation of the poll condition (src/unnamed/part_000 491-504): a
fetch error is logged and treated as not ready (`return false, nil`);
otherwise the condition holds exactly when `ReadyReplicas >= 1`. -/
def pollOnce (polls : Nat → PollResult) (i : Nat) : Bool :=
  match polls i with
  | .fetchErr => false
  | .status r => decide (1 ≤ r)

/-- Message of `wait.ErrWaitTimeout`, the error `wait.PollImmediate` returns on
timeout. -/
def timeoutMsg : List Char := str "timed out waiting for the condition"

/-- The loop of `wait.PollImmediate`: evaluate the condition for poll `i`; on
success stop, otherwise recurse with the remaining fuel.  Returns the Go result
together with the number of condition evaluations performed. -/
def waitLoop (polls : Nat → PollResult) : Nat → Nat → Except (List Char) Unit × Nat
  | _, 0 => (.error timeoutMsg, 0)
  | i, fuel + 1 =>
    if pollOnce polls i then (.ok (), 1)
    else
      let r := waitLoop polls (i + 1) fuel
      (r.1, r.2 + 1)

/-- Embeds `waitForDeploymentReady` (src/unnamed/part_000 486-505):
`wait.PollImmediate(5*time.Second, timeout, cond)` evaluates the condition
immediately and then once per 5-second tick until the timeout elapses.  Poll
`i` is the evaluation at time `5*i` seconds; the budget admits the immediate
evaluation plus `timeoutSec / 5` ticks. -/
def waitForDeploymentReady (polls : Nat → PollResult) (timeoutSec : Nat) :
    Except (List Char) Unit × Nat :=
  waitLoop polls 0 (timeoutSec / 5 + 1)

/-- When no poll in the budget reports ready, the loop runs out of fuel and
returns the timeout error after performing every poll. -/
theorem waitLoop_all_false (polls : Nat → PollResult) :
    ∀ fuel i, (∀ j, j < fuel → pollOnce polls (i + j) = false) →
      waitLoop polls i fuel = (.error timeoutMsg, fuel) := by
  intro fuel
  induction fuel with
  | zero => intro i _; rfl
  | succ n ih =>
    intro i h
    have h0 : pollOnce polls i = false := by
      have := h 0 (Nat.succ_pos n)
      simpa using this
    simp only [waitLoop, h0, if_false, Bool.false_eq_true]
    have htail := ih (i + 1) (fun j hj => by
      have := h (j + 1) (by omega)
      simpa [Nat.add_assoc, Nat.add_comm 1 j] using this)
    rw [htail]

/-- The first ready poll stops the loop: if poll `i + k` is the first ready
poll, the loop returns success having performed exactly `k + 1` polls. -/
theorem waitLoop_first_true (polls : Nat → PollResult) :
    ∀ k fuel i, k < fuel → pollOnce polls (i + k) = true →
      (∀ j, j < k → pollOnce polls (i + j) = false) →
      waitLoop polls i fuel = (.ok (), k + 1) := by
  intro k
  induction k with
  | zero =>
    intro fuel i hk hready _
    cases fuel with
    | zero => omega
    | succ n =>
      have : pollOnce polls i = true := by simpa using hready
      simp [waitLoop, this]
  | succ m ih =>
    intro fuel i hk hready hbefore
    cases fuel with
    | zero => omega
    | succ n =>
      have h0 : pollOnce polls i = false := by
        have := hbefore 0 (Nat.succ_pos m)
        simpa using this
      simp only [waitLoop, h0, if_false, Bool.false_eq_true]
      have htail := ih n (i + 1) (by omega)
        (by have := hready; rwa [Nat.add_comm m 1, ← Nat.add_assoc] at this)
        (fun j hj => by
          have := hbefore (j + 1) (by omega)
          rwa [Nat.add_comm j 1, ← Nat.add_assoc] at this)
      rw [htail]

/-- The loop succeeds exactly when some poll within the fuel budget is ready. -/
theorem waitLoop_ok_iff (polls : Nat → PollResult) :
    ∀ fuel i, (waitLoop polls i fuel).1 = Except.ok ()
      ↔ ∃ j, j < fuel ∧ pollOnce polls (i + j) = true := by
  intro fuel
  induction fuel with
  | zero =>
    intro i
    constructor
    · intro h; cases h
    · rintro ⟨j, hj, _⟩; omega
  | succ n ih =>
    intro i
    by_cases h0 : pollOnce polls i = true
    · simp only [waitLoop, h0, if_true]
      constructor
      · intro _; exact ⟨0, Nat.succ_pos n, by simpa using h0⟩
      · intro _; trivial
    · simp only [waitLoop, h0, if_false, Bool.false_eq_true]
      rw [ih (i + 1)]
      constructor
      · rintro ⟨j, hj, hready⟩
        exact ⟨j + 1, by omega, by rwa [Nat.add_comm j 1, ← Nat.add_assoc]⟩
      · rintro ⟨j, hj, hready⟩
        cases j with
        | zero => simp at hready; exact absurd hready h0
        | succ m =>
          exact ⟨m, by omega, by rwa [Nat.add_comm m 1, ← Nat.add_assoc] at hready⟩

/-- Claim C5: with the 120-second budget and the fixed 5-second interval the
poller performs up to 25 polls (the immediate one plus 24 ticks, poll `i`
happening at `5*i` seconds).  (1) A fetch error during a poll is treated as
not-yet-ready, so the loop continues; (2) the first poll reporting a
ready-replica count ≥ 1 ends the loop immediately with success; (3) if no poll
in the budget reports ready, the result is the timeout error, obtained only
after the whole budget; (4) success is reported exactly when some poll within
the budget reports ready. -/
theorem waitForDeploymentReady_spec :
    (∀ (polls : Nat → PollResult) i, polls i = PollResult.fetchErr →
        pollOnce polls i = false)
      ∧ (∀ (polls : Nat → PollResult) i, i < 25 → pollOnce polls i = true →
          (∀ j, j < i → pollOnce polls j = false) →
          waitForDeploymentReady polls 120 = (Except.ok (), i + 1))
      ∧ (∀ (polls : Nat → PollResult), (∀ i, i < 25 → pollOnce polls i = false) →
          waitForDeploymentReady polls 120 = (Except.error timeoutMsg, 25))
      ∧ (∀ (polls : Nat → PollResult), (waitForDeploymentReady polls 120).1 = Except.ok ()
          ↔ ∃ i, i < 25 ∧ pollOnce polls i = true) := by
  refine ⟨fun polls i h => ?_, fun polls i hi hready hbefore => ?_,
    fun polls h => ?_, fun polls => ?_⟩
  · simp [pollOnce, h]
  · have := waitLoop_first_true polls i 25 0 hi (by simpa using hready)
      (fun j hj => by simpa using hbefore j hj)
    simpa [waitForDeploymentReady] using this
  · have := waitLoop_all_false polls 25 0 (fun j hj => by simpa using h j hj)
    simpa [waitForDeploymentReady] using this
  · have := waitLoop_ok_iff polls 25 0
    simpa [waitForDeploymentReady] using this

/-- Witness for C5: with a status source that is immediately ready, the poller
returns success after a single poll. -/
theorem waitForDeploymentReady_spec_witness :
    waitForDeploymentReady (fun _ => PollResult.status 1) 120 = (Except.ok (), 1) :=
  waitForDeploymentReady_spec.2.1 (fun _ => PollResult.status 1) 0 (by decide) (by decide)
    (fun j hj => absurd hj (Nat.not_lt_zero j))

/-! ## The HTTP handler `handleCreateWordPress` (src/main.go 352-617) -/

/-- The decoded JSON request body (src/main.go 320-326). -/
structure RequestPayload where
  Kubeconfig : List Char
  Namespace : List Char
  PersistenceDiskGB : Int
  DatabaseDiskGB : Int
  DeploymentName : List Char

/-- The JSON response (src/main.go 329-333). -/
structure APIResponse where
  Success : Bool
  Message : List Char
  Resources : List (List Char)
  deriving DecidableEq

/-- Results the external collaborators (entropy source, client construction,
cluster gateway) yield to one request, one field per kind of call; creation
calls receive the submitted object's name.  `polls` is the status source the
readiness poller consumes for a given deployment name. -/
structure ClusterOracle where
  draws : List (Fin 36)
  initClient : Except (List Char) Unit
  nsGateway : NsGateway
  createPV : List Char → Except (List Char) Unit
  createPVC : List Char → Except (List Char) Unit
  createSecret : List Char → Except (List Char) Unit
  createDeployment : List Char → Except (List Char) Unit
  createService : List Char → Except (List Char) Unit
  polls : List Char → Nat → PollResult

/-- Embeds Go's `strings.TrimSpace`. -/
def trimSpace (s : List Char) : List Char :=
  ((s.dropWhile Char.isWhitespace).reverse.dropWhile Char.isWhitespace).reverse

/-- The naming prefix after defaulting (src/main.go 384-387): `"wp"` when the
supplied `deployment_name` is empty up to whitespace, the supplied value
otherwise. -/
def effectiveDeploymentName (payload : RequestPayload) : List Char :=
  if trimSpace payload.DeploymentName = [] then str "wp" else payload.DeploymentName

/-- Embeds `handleCreateWordPress` (src/main.go 352-617; the HTTP method and
JSON-decoding guards are transport concerns outside this model).  Returns the
ordered list of external calls performed and the response written.  The source
order is preserved: namespace validation, deployment-name and size defaulting,
suffix generation (line 397), client construction (line 414), namespace
ensure (line 429), name derivation (lines 441-450), then the creation steps,
each aborting the pipeline on its first failure.  Disk sizes and host paths
are elided from the call events: no claim concerns them. -/
def handleCreateWordPress (payload : RequestPayload) (o : ClusterOracle) :
    List Event × APIResponse :=
  if payload.Namespace = [] then
    ([], ⟨false, str "namespace is required", []⟩)
  else
    match generateRandomSuffix 5 o.draws with
    | none =>
      ([Event.genSuffix], ⟨false, str "Could not generate unique suffix", []⟩)
    | some sfx =>
      match o.initClient with
      | .error _ =>
        ([Event.genSuffix, Event.initClient],
          ⟨false, str "Could not initialize Kubernetes client", []⟩)
      | .ok _ =>
        let nsRes := ensureNamespace o.nsGateway payload.Namespace
        let pre := Event.genSuffix :: Event.initClient :: nsRes.1
        match nsRes.2 with
        | .error e => (pre, ⟨false, e, []⟩)
        | .ok _ =>
          let name := effectiveDeploymentName payload
          let dbPVName := buildResourceName name (str "db-pv") sfx
          let dbPVCName := buildResourceName name (str "db-pvc") sfx
          let dbDeploymentName := buildResourceName name (str "db") sfx
          let dbServiceName := buildResourceName name (str "db-svc") sfx
          let dbSecretName := buildResourceName name (str "db-secret") sfx
          let wpPVName := buildResourceName name (str "wp-pv") sfx
          let wpPVCName := buildResourceName name (str "wp-pvc") sfx
          let wpDeploymentName := buildResourceName name (str "wp") sfx
          let wpServiceName := buildResourceName name (str "wp-svc") sfx
          match o.createPV dbPVName with
          | .error e =>
            (pre ++ [Event.createPV dbPVName],
              ⟨false, str "Failed to create MySQL PV: " ++ e, []⟩)
          | .ok _ =>
          match o.createPVC dbPVCName with
          | .error e =>
            (pre ++ [Event.createPV dbPVName, Event.createPVC dbPVCName],
              ⟨false, str "Failed to create MySQL PVC: " ++ e, []⟩)
          | .ok _ =>
          match o.createPV wpPVName with
          | .error e =>
            (pre ++ [Event.createPV dbPVName, Event.createPVC dbPVCName,
                Event.createPV wpPVName],
              ⟨false, str "Failed to create WordPress PV: " ++ e, []⟩)
          | .ok _ =>
          match o.createPVC wpPVCName with
          | .error e =>
            (pre ++ [Event.createPV dbPVName, Event.createPVC dbPVCName,
                Event.createPV wpPVName, Event.createPVC wpPVCName],
              ⟨false, str "Failed to create WordPress PVC: " ++ e, []⟩)
          | .ok _ =>
          match o.createSecret dbSecretName with
          | .error _ =>
            (pre ++ [Event.createPV dbPVName, Event.createPVC dbPVCName,
                Event.createPV wpPVName, Event.createPVC wpPVCName,
                Event.createSecret dbSecretName],
              ⟨false, str "Failed to create MySQL/WordPress Secret", []⟩)
          | .ok _ =>
          match o.createDeployment dbDeploymentName with
          | .error _ =>
            (pre ++ [Event.createPV dbPVName, Event.createPVC dbPVCName,
                Event.createPV wpPVName, Event.createPVC wpPVCName,
                Event.createSecret dbSecretName, Event.createDeployment dbDeploymentName],
              ⟨false, str "Failed to create MySQL deployment", []⟩)
          | .ok _ =>
          match o.createService dbServiceName with
          | .error _ =>
            (pre ++ [Event.createPV dbPVName, Event.createPVC dbPVCName,
                Event.createPV wpPVName, Event.createPVC wpPVCName,
                Event.createSecret dbSecretName, Event.createDeployment dbDeploymentName,
                Event.createService dbServiceName],
              ⟨false, str "Failed to create MySQL service", []⟩)
          | .ok _ =>
          match (waitForDeploymentReady (o.polls dbDeploymentName) 120).1 with
          | .error _ =>
            (pre ++ [Event.createPV dbPVName, Event.createPVC dbPVCName,
                Event.createPV wpPVName, Event.createPVC wpPVCName,
                Event.createSecret dbSecretName, Event.createDeployment dbDeploymentName,
                Event.createService dbServiceName, Event.waitReady dbDeploymentName],
              ⟨false, str "MySQL deployment failed to become ready", []⟩)
          | .ok _ =>
          match o.createDeployment wpDeploymentName with
          | .error _ =>
            (pre ++ [Event.createPV dbPVName, Event.createPVC dbPVCName,
                Event.createPV wpPVName, Event.createPVC wpPVCName,
                Event.createSecret dbSecretName, Event.createDeployment dbDeploymentName,
                Event.createService dbServiceName, Event.waitReady dbDeploymentName,
                Event.createDeployment wpDeploymentName],
              ⟨false, str "Failed to create WordPress deployment", []⟩)
          | .ok _ =>
          match o.createService wpServiceName with
          | .error _ =>
            (pre ++ [Event.createPV dbPVName, Event.createPVC dbPVCName,
                Event.createPV wpPVName, Event.createPVC wpPVCName,
                Event.createSecret dbSecretName, Event.createDeployment dbDeploymentName,
                Event.createService dbServiceName, Event.waitReady dbDeploymentName,
                Event.createDeployment wpDeploymentName, Event.createService wpServiceName],
              ⟨false, str "Failed to create WordPress service", []⟩)
          | .ok _ =>
          match (waitForDeploymentReady (o.polls wpDeploymentName) 120).1 with
          | .error _ =>
            (pre ++ [Event.createPV dbPVName, Event.createPVC dbPVCName,
                Event.createPV wpPVName, Event.createPVC wpPVCName,
                Event.createSecret dbSecretName, Event.createDeployment dbDeploymentName,
                Event.createService dbServiceName, Event.waitReady dbDeploymentName,
                Event.createDeployment wpDeploymentName, Event.createService wpServiceName,
                Event.waitReady wpDeploymentName],
              ⟨false, str "WordPress deployment failed to become ready", []⟩)
          | .ok _ =>
            (pre ++ [Event.createPV dbPVName, Event.createPVC dbPVCName,
                Event.createPV wpPVName, Event.createPVC wpPVCName,
                Event.createSecret dbSecretName, Event.createDeployment dbDeploymentName,
                Event.createService dbServiceName, Event.waitReady dbDeploymentName,
                Event.createDeployment wpDeploymentName, Event.createService wpServiceName,
                Event.waitReady wpDeploymentName],
              ⟨true,
                str "WordPress + MySQL stack created successfully. Strong random credentials have been set for MySQL.",
                [str "Namespace: " ++ payload.Namespace,
                 str "PV: " ++ dbPVName, str "PVC: " ++ dbPVCName,
                 str "PV: " ++ wpPVName, str "PVC: " ++ wpPVCName,
                 str "Secret: " ++ dbSecretName,
                 str "MySQL Deployment: " ++ dbDeploymentName,
                 str "MySQL Service: " ++ dbServiceName,
                 str "WordPress Deployment: " ++ wpDeploymentName,
                 str "WordPress Service: " ++ wpServiceName]⟩)

/-- Tests whether an event is the namespace get. -/
def isNsGet : Event → Bool
  | .nsGet => true
  | _ => false

/-- Tests whether an event submits a new resource to the cluster. -/
def isResourceCreation : Event → Bool
  | .createPV _ => true
  | .createPVC _ => true
  | .createSecret _ => true
  | .createDeployment _ => true
  | .createService _ => true
  | _ => false

/-- Tests for a persistent-volume creation call. -/
def isCreatePV : Event → Bool
  | .createPV _ => true
  | _ => false

/-- Tests for a volume-claim creation call. -/
def isCreatePVC : Event → Bool
  | .createPVC _ => true
  | _ => false

/-- Tests for a secret creation call. -/
def isCreateSecret : Event → Bool
  | .createSecret _ => true
  | _ => false

/-- Tests for a deployment creation call. -/
def isCreateDeployment : Event → Bool
  | .createDeployment _ => true
  | _ => false

/-- Tests for a service creation call. -/
def isCreateService : Event → Bool
  | .createService _ => true
  | _ => false

/-- Tests for a readiness wait. -/
def isWaitReady : Event → Bool
  | .waitReady _ => true
  | _ => false

/-- The calls `ensureNamespace` performs are either just the get, or the get
followed by the create. -/
theorem ensureNamespace_events_shape (gw : NsGateway) (ns : List Char) :
    (ensureNamespace gw ns).1 = [Event.nsGet]
      ∨ (ensureNamespace gw ns).1 = [Event.nsGet, Event.nsCreate] := by
  unfold ensureNamespace
  cases gw.getNamespace with
  | ok _ => left; rfl
  | error _ =>
    cases gw.createNamespace with
    | ok _ => right; rfl
    | error _ => right; rfl

/-- Claim C4 (scenario 5): when the pipeline reaches the database volume-claim
creation and that call fails, the handler responds with failure and the call
trace stops there — one volume create (the database one), one claim create
(the failing call itself), and no secret, deployment, service, or readiness
wait whatsoever. -/
theorem pipeline_halts_on_dbPVC_failure (payload : RequestPayload) (o : ClusterOracle)
    (sfx e : List Char)
    (hns : payload.Namespace ≠ [])
    (hsfx : generateRandomSuffix 5 o.draws = some sfx)
    (hinit : o.initClient = Except.ok ())
    (hens : (ensureNamespace o.nsGateway payload.Namespace).2 = Except.ok ())
    (hpv : o.createPV (buildResourceName (effectiveDeploymentName payload) (str "db-pv") sfx)
      = Except.ok ())
    (hpvc : o.createPVC (buildResourceName (effectiveDeploymentName payload) (str "db-pvc") sfx)
      = Except.error e) :
    (handleCreateWordPress payload o).2.Success = false
      ∧ (handleCreateWordPress payload o).1.filter isCreatePV
        = [Event.createPV (buildResourceName (effectiveDeploymentName payload) (str "db-pv") sfx)]
      ∧ (handleCreateWordPress payload o).1.filter isCreatePVC
        = [Event.createPVC (buildResourceName (effectiveDeploymentName payload) (str "db-pvc") sfx)]
      ∧ (handleCreateWordPress payload o).1.filter isCreateSecret = []
      ∧ (handleCreateWordPress payload o).1.filter isCreateDeployment = []
      ∧ (handleCreateWordPress payload o).1.filter isCreateService = []
      ∧ (handleCreateWordPress payload o).1.filter isWaitReady = [] := by
  simp only [handleCreateWordPress, if_neg hns, hsfx, hinit, hens, hpv, hpvc]
  rcases ensureNamespace_events_shape o.nsGateway payload.Namespace with h | h <;>
    rw [h] <;>
    simp [isCreatePV, isCreatePVC, isCreateSecret, isCreateDeployment, isCreateService,
      isWaitReady, List.filter]

/-- An all-successful oracle: entropy yields the suffix `"aaaaa"`, client
construction succeeds, the namespace already exists, every create succeeds and
every deployment is immediately ready. -/
def okOracle : ClusterOracle where
  draws := aaaaaDraws
  initClient := .ok ()
  nsGateway := ⟨.ok (), .ok ()⟩
  createPV := fun _ => .ok ()
  createPVC := fun _ => .ok ()
  createSecret := fun _ => .ok ()
  createDeployment := fun _ => .ok ()
  createService := fun _ => .ok ()
  polls := fun _ _ => PollResult.status 1

/-- A request with namespace `"demo"` and every optional field absent. -/
def demoPayload : RequestPayload where
  Kubeconfig := []
  Namespace := str "demo"
  PersistenceDiskGB := 0
  DatabaseDiskGB := 0
  DeploymentName := []

/-- The `okOracle` with a failing database volume-claim create. -/
def dbPVCFailOracle : ClusterOracle :=
  { okOracle with createPVC := fun _ => .error (str "boom") }

/-- Witness for C4 at a concrete request whose database claim create fails. -/
theorem pipeline_halts_on_dbPVC_failure_witness :
    (handleCreateWordPress demoPayload dbPVCFailOracle).2.Success = false :=
  (pipeline_halts_on_dbPVC_failure demoPayload dbPVCFailOracle (str "aaaaa") (str "boom")
    (by decide) (by decide) rfl rfl rfl rfl).1

/-- Counterexample to claim C6 as stated: on a concrete successful request the
suffix generation occurs strictly before the namespace get — `genSuffix` lies
in the part of the call trace preceding the first `nsGet` — so the namespace is
NOT ensured before the uniqueness suffix is generated. -/
theorem suffix_before_namespace_cex :
    Event.nsGet ∈ (handleCreateWordPress demoPayload okOracle).1
      ∧ Event.genSuffix ∈ ((handleCreateWordPress demoPayload okOracle).1.takeWhile
          (fun e => !(isNsGet e))) := by
  refine ⟨by decide, by decide⟩

/-- Claim C6 amended: within one request, the uniqueness suffix is generated
BEFORE the namespace is ensured (src/main.go 397 versus 429); what does hold of
the order is that the namespace ensure precedes every resource creation — no
creation call, and hence no use of a derived resource name, happens before the
first namespace get. -/
theorem namespace_ensured_before_creations (payload : RequestPayload) (o : ClusterOracle) :
    (((handleCreateWordPress payload o).1.takeWhile (fun e => !(isNsGet e))).all
        (fun e => !(isResourceCreation e))) = true
      ∧ (Event.nsGet ∈ (handleCreateWordPress payload o).1 →
          Event.genSuffix ∈ ((handleCreateWordPress payload o).1.takeWhile
            (fun e => !(isNsGet e)))) := by
  obtain ⟨t, ht⟩ : ∃ t, (ensureNamespace o.nsGateway payload.Namespace).1
      = Event.nsGet :: t := by
    rcases ensureNamespace_events_shape o.nsGateway payload.Namespace with h | h
    · exact ⟨[], h⟩
    · exact ⟨[Event.nsCreate], h⟩
  simp only [handleCreateWordPress]
  repeat' split
  all_goals
    simp [ht, isNsGet, isResourceCreation, List.takeWhile_cons]

/-- Witness for the amended C6 at a concrete request. -/
theorem namespace_ensured_before_creations_witness :
    Event.genSuffix ∈ ((handleCreateWordPress demoPayload okOracle).1.takeWhile
      (fun e => !(isNsGet e))) :=
  (namespace_ensured_before_creations demoPayload okOracle).2 (by decide)

/-- Claim C8: a request with a non-empty namespace and a missing or empty
`deployment_name` is accepted — validation passes and the handler proceeds to
suffix generation, the first pipeline action — and the naming prefix every
resource name is derived from defaults to `"wp"`. -/
theorem default_deployment_name_accepted (payload : RequestPayload) (o : ClusterOracle)
    (hns : payload.Namespace ≠ [])
    (hdn : trimSpace payload.DeploymentName = []) :
    effectiveDeploymentName payload = str "wp"
      ∧ (handleCreateWordPress payload o).1.head? = some Event.genSuffix := by
  constructor
  · simp [effectiveDeploymentName, hdn]
  · simp only [handleCreateWordPress, if_neg hns]
    repeat' split
    all_goals simp

/-- Witness for C8 at a concrete request with an empty deployment name. -/
theorem default_deployment_name_accepted_witness :
    effectiveDeploymentName demoPayload = str "wp" :=
  (default_deployment_name_accepted demoPayload okOracle (by decide) (by decide)).1

end WPDeployer
